import Mathlib

/-!
Verification of the elkodon shared-memory abstraction layer.

Shallow embedding of:
* `elkodon_bb/elementary/src/math.rs` (`align`, `round_to_pow2`),
* `elkodon_pal/posix/src/windows/win32_udp_port_to_uds_name.rs`
  (the port-to-UDS-name directory: `Entry::set`, `Entry::get`,
  `PortToUdsNameMap::set/get/get_port`),
* `elkodon_bb/posix/src/shared_memory.rs` (the builder state machine:
  `SharedMemoryBuilder::open`, `SharedMemoryCreationBuilder::create`),
* the scope-guard utility (modelled from the specification, its source
  file is not part of the provided tree).

Machine integers (u64/usize) are modelled as `Nat` with explicit
`% 2^64` where the Rust code can wrap; fallible operations (slice
indexing that can panic) return `Option`.
-/

/-- 2^64, the modulus of `u64` and of 64-bit `usize` arithmetic. -/
def U64_MOD : Nat := 18446744073709551616

/-- Wrapping 64-bit addition, the release-mode semantics of `+` on `usize`. -/
def wrapAdd (x y : Nat) : Nat := (x + y) % U64_MOD

/-- Wrapping 64-bit subtraction, the release-mode semantics of `-` on `usize`/`u64`. -/
def wrapSub (x y : Nat) : Nat := (x % U64_MOD + (U64_MOD - y % U64_MOD)) % U64_MOD

/-- `align` from `elkodon_bb/elementary/src/math.rs`:
`if value % alignment == 0 { value } else { value + alignment - value % alignment }`,
with the 64-bit wrapping that the release build performs on overflow. -/
def align (value alignment : Nat) : Nat :=
  if value % alignment = 0 then value
  else wrapSub (wrapAdd value alignment) (value % alignment)

/-- `round_to_pow2` from `elkodon_bb/elementary/src/math.rs`: decrement,
smear the high bit rightwards with shifted ors, increment. -/
def round_to_pow2 (value : Nat) : Nat :=
  let v0 := wrapSub value 1
  let v1 := v0 ||| (v0 >>> 1)
  let v2 := v1 ||| (v1 >>> 2)
  let v3 := v2 ||| (v2 >>> 4)
  let v4 := v3 ||| (v3 >>> 8)
  let v5 := v4 ||| (v4 >>> 16)
  let v6 := v5 ||| (v5 >>> 32)
  wrapAdd v6 1

/-- `MAX_UDS_NAME_LEN` from `win32_udp_port_to_uds_name.rs`. -/
def MAX_UDS_NAME_LEN : Nat := 108

/-- `dst[..src.len()].copy_from_slice(src)` on a byte buffer `dst`:
panics (`none`) when `src.len() > dst.len()`, otherwise overwrites the
prefix of `dst` with `src`. -/
def copyFromSlice (dst src : List Nat) : Option (List Nat) :=
  if src.length ≤ dst.length then some (src ++ dst.drop src.length) else none

/-- `Entry` from `win32_udp_port_to_uds_name.rs`: a `u64` ABA counter and
two 108-byte buffers (`value[0]`, `value[1]`). -/
structure Entry where
  aba_counter : Nat
  value0 : List Nat
  value1 : List Nat
deriving DecidableEq

/-- The freshly initialized entry (`Entry::initialize`): counter 1, both
buffers zeroed. -/
def Entry.init : Entry :=
  { aba_counter := 1
    value0 := List.replicate MAX_UDS_NAME_LEN 0
    value1 := List.replicate MAX_UDS_NAME_LEN 0 }

/-- `Entry::set`: read the counter, zero buffer `counter % 2`, copy the
name into its prefix (panicking, hence `none`, when the name exceeds 108
bytes), then increment the counter (wrapping `u64` add). -/
def Entry.set (e : Entry) (v : List Nat) : Option Entry :=
  match copyFromSlice (List.replicate MAX_UDS_NAME_LEN 0) v with
  | none => none
  | some newBuf =>
      if e.aba_counter % 2 = 0 then
        some { e with value0 := newBuf, aba_counter := wrapAdd e.aba_counter 1 }
      else
        some { e with value1 := newBuf, aba_counter := wrapAdd e.aba_counter 1 }

/-- `Entry::get` in a quiescent state: read the counter `c` and return a
copy of buffer `(c - 1) % 2` (wrapping `u64` subtraction); with no
interleaved writer the re-read of the counter matches and the loop exits
after its first iteration. -/
def Entry.get (e : Entry) : List Nat :=
  if wrapSub e.aba_counter 1 % 2 = 0 then e.value0 else e.value1

/-- The number of slots of `PortToUdsNameMap.uds_names`: `[Entry; 65535]`. -/
def UDS_NAMES_LEN : Nat := 65535

/-- The slot array of `PortToUdsNameMap`, as a total map from index to
entry; all accesses in the source go through bounds-checked indexing. -/
def PortToUdsNameMap : Type := Nat → Entry

/-- The directory right after `PortToUdsNameMap::initialize`: every slot
is a fresh entry. -/
def PortToUdsNameMap.init : PortToUdsNameMap := fun _ => Entry.init

/-- `PortToUdsNameMap::set`: `self.uds_names[port as usize].set(name)`.
The indexing panics (`none`) when `port` is not below 65535, and the
inner `Entry::set` panics when the name is longer than 108 bytes. -/
def PortToUdsNameMap.set (m : PortToUdsNameMap) (port : Nat) (name : List Nat) :
    Option PortToUdsNameMap :=
  if port < UDS_NAMES_LEN then
    match Entry.set (m port) name with
    | none => none
    | some e => some (fun i => if i = port then e else m i)
  else none

/-- `PortToUdsNameMap::get`: `self.uds_names[port as usize].get()`, with
the same bounds-checked indexing. -/
def PortToUdsNameMap.get (m : PortToUdsNameMap) (port : Nat) : Option (List Nat) :=
  if port < UDS_NAMES_LEN then some (Entry.get (m port)) else none

/-- The body of one `get_port` loop iteration on slot `i`: read the slot,
let `pos` be the position of the first NUL (0 when there is none), skip
when `pos == 0 || pos > name.len()`, otherwise compare the `pos`-byte
prefixes. -/
def slotMatches (m : PortToUdsNameMap) (name : List Nat) (i : Nat) : Bool :=
  let entry_name := Entry.get (m i)
  let pos := (entry_name.findIdx? (fun c => c == 0)).getD 0
  if pos = 0 || name.length < pos then false
  else entry_name.take pos == name.take pos

/-- The `for i in 0..len` loop of `get_port`, scanning `count` slots
starting at index `i` and returning the first match, or 0. -/
def getPortScan (m : PortToUdsNameMap) (name : List Nat) : Nat → Nat → Nat
  | _, 0 => 0
  | i, Nat.succ k => if slotMatches m name i then i else getPortScan m name (i + 1) k

/-- `PortToUdsNameMap::get_port`: linear scan of all 65535 slots. -/
def PortToUdsNameMap.get_port (m : PortToUdsNameMap) (name : List Nat) : Nat :=
  getPortScan m name 0 UDS_NAMES_LEN

/-- `AccessMode` used by the shared-memory builder. -/
inductive AccessMode where
  | None
  | Read
  | ReadWrite
deriving DecidableEq

/-- `CreationMode` from `creation_mode.rs`, as consumed by
`SharedMemoryCreationBuilder::create`. -/
inductive CreationMode where
  | CreateExclusive
  | PurgeAndCreate
  | OpenOrCreate
deriving DecidableEq

/-- `SharedMemoryCreationError` from `shared_memory.rs`. The four nested
error kinds that `enum_gen!` folds in (`FileTruncateError`,
`FileStatError`, `MemoryLockCreationError`, `SharedMemoryRemoveError`)
are carried as constructors holding the nested error code. -/
inductive SharedMemoryCreationError where
  | SizeDoesNotFit
  | InsufficientMemory
  | InsufficientMemoryToBeMemoryLocked
  | UnsupportedSizeOfZero
  | InsufficientPermissions
  | MappedRegionLimitReached
  | PerProcessFileHandleLimitReached
  | SystemWideFileHandleLimitReached
  | NameTooLong
  | InvalidName
  | AlreadyExist
  | DoesNotExist
  | UnableToMapAtEnforcedBaseAddress
  | UnknownError (errno : Int)
  | FileTruncateFailure (e : Nat)
  | FileStatFailure (e : Nat)
  | MemoryLockFailure (e : Nat)
  | SharedMemoryRemoveFailure (e : Nat)
deriving DecidableEq

/-- The configuration record `SharedMemoryBuilder` from
`shared_memory.rs` (the name is kept abstract as a byte list, the
permission as a raw mode word). -/
structure SharedMemoryBuilder where
  name : List Nat
  size : Nat
  is_memory_locked : Bool
  has_ownership : Bool
  permission : Nat
  creation_mode : Option CreationMode
  zero_memory : Bool
  access_mode : AccessMode
  enforce_base_address : Option Nat
deriving DecidableEq

/-- `SharedMemoryBuilder::new`: defaults of the configuration. -/
def SharedMemoryBuilder.new (name : List Nat) : SharedMemoryBuilder :=
  { name := name
    size := 0
    is_memory_locked := false
    has_ownership := true
    permission := 0
    creation_mode := none
    zero_memory := true
    access_mode := AccessMode.None
    enforce_base_address := none }

/-- The handle `SharedMemory` from `shared_memory.rs` (the file
descriptor is an opaque number, the memory lock a presence flag). -/
structure SharedMemory where
  name : List Nat
  size : Nat
  base_address : Nat
  has_ownership : Bool
  file_descriptor : Nat
  memory_lock : Bool
deriving DecidableEq

/-- The outcomes of the OS calls a single builder run performs, after
the source's errno translation tables: each field is the value the
corresponding wrapper (`shm_open`, `shm_create`, `shm_unlink`, `mmap`,
`metadata`, `truncate`, `MemoryLock::new`, the zeroing memset) returns. -/
structure OsEnv where
  open_result : Except SharedMemoryCreationError Nat
  create_result : Except SharedMemoryCreationError Nat
  unlink_result : Except Nat Unit
  mmap_result : Except SharedMemoryCreationError Nat
  stat_result : Except Nat Nat
  truncate_result : Except Nat Unit
  mlock_result : Except Nat Unit
  zero_signal : Option Nat
  advanced_signal_handling : Bool

/-- The process state the claims observe: the list of base addresses of
currently established `mmap` mappings (a successful `mmap` adds one, a
`munmap` in `Drop` removes one; no code path of `open`/`create`
unmaps). -/
structure OsState where
  mapped : List Nat
deriving DecidableEq

/-- The mismatch test
`enforce_base_address.is_some() && enforce_base_address.unwrap() != base`. -/
def enforceMismatch (enforce : Option Nat) (base : Nat) : Bool :=
  match enforce with
  | some a => a != base
  | none => false

/-- The file-descriptor acquisition phase of
`SharedMemoryCreationBuilder::create`: the `match creation_mode` block.
Returns `none` when `creation_mode` is unset (`expect` aborts), else
the fd together with `shm_created` and the possibly forced-to-false
ownership flag. -/
def fdPhase (cfg : SharedMemoryBuilder) (env : OsEnv) :
    Option (Except SharedMemoryCreationError (Nat × Bool × Bool)) :=
  match cfg.creation_mode with
  | none => none
  | some CreationMode.CreateExclusive =>
      some (env.create_result.map (fun fd => (fd, true, cfg.has_ownership)))
  | some CreationMode.PurgeAndCreate =>
      some (match env.unlink_result with
        | Except.error e => Except.error (SharedMemoryCreationError.SharedMemoryRemoveFailure e)
        | Except.ok _ => env.create_result.map (fun fd => (fd, true, cfg.has_ownership)))
  | some CreationMode.OpenOrCreate =>
      some (match env.open_result with
        | Except.ok fd => Except.ok (fd, false, false)
        | Except.error SharedMemoryCreationError.DoesNotExist =>
            env.create_result.map (fun fd => (fd, true, cfg.has_ownership))
        | Except.error v => Except.error v)

/-- The tail of `create` after a successful `mmap` and size
verification: memory lock and zeroing on the freshly created segment. -/
def createFinish (cfg : SharedMemoryBuilder) (env : OsEnv) (st : OsState)
    (shm : SharedMemory) : OsState × Except SharedMemoryCreationError SharedMemory :=
  let locked :=
    if cfg.is_memory_locked then
      match env.mlock_result with
      | Except.error e => Except.error (SharedMemoryCreationError.MemoryLockFailure e)
      | Except.ok _ => Except.ok { shm with memory_lock := true }
    else Except.ok shm
  match locked with
  | Except.error e => (st, Except.error e)
  | Except.ok shm1 =>
      if cfg.zero_memory then
        if env.advanced_signal_handling then
          match env.zero_signal with
          | some _ => (st, Except.error SharedMemoryCreationError.InsufficientMemory)
          | none => (st, Except.ok shm1)
        else (st, Except.ok shm1)
      else (st, Except.ok shm1)

/-- `SharedMemoryCreationBuilder::create` from `shared_memory.rs`:
fd phase, `mmap`, enforced-base-address check, then either the
size-verification of an opened segment or truncate/verify/lock/zero of a
created one. The mapped-address list is threaded through; note that no
error path after `mmap` removes the mapping. -/
def SharedMemoryCreationBuilder.create (cfg : SharedMemoryBuilder) (env : OsEnv)
    (st : OsState) :
    Option (OsState × Except SharedMemoryCreationError SharedMemory) :=
  match fdPhase cfg env with
  | none => none
  | some (Except.error e) => some (st, Except.error e)
  | some (Except.ok (fd, shm_created, owning)) =>
      match env.mmap_result with
      | Except.error e => some (st, Except.error e)
      | Except.ok base =>
          let st1 : OsState := { mapped := base :: st.mapped }
          if enforceMismatch cfg.enforce_base_address base then
            some (st1, Except.error SharedMemoryCreationError.UnableToMapAtEnforcedBaseAddress)
          else
            let shm : SharedMemory :=
              { name := cfg.name
                size := cfg.size
                base_address := base
                has_ownership := owning
                file_descriptor := fd
                memory_lock := false }
            if shm_created = false then
              match env.stat_result with
              | Except.error e =>
                  some (st1, Except.error (SharedMemoryCreationError.FileStatFailure e))
              | Except.ok actual =>
                  if actual ≠ cfg.size then
                    some (st1, Except.error SharedMemoryCreationError.SizeDoesNotFit)
                  else some (st1, Except.ok shm)
            else
              match env.truncate_result with
              | Except.error e =>
                  some (st1, Except.error (SharedMemoryCreationError.FileTruncateFailure e))
              | Except.ok _ =>
                  match env.stat_result with
                  | Except.error e =>
                      some (st1, Except.error (SharedMemoryCreationError.FileStatFailure e))
                  | Except.ok actual =>
                      if actual ≠ cfg.size then
                        some (st1, Except.error SharedMemoryCreationError.SizeDoesNotFit)
                      else some (createFinish cfg env st1 shm)

/-- `SharedMemoryBuilder::open` from `shared_memory.rs` (the common body
of `open_existing` and `try_open_existing`): `shm_open`, read the actual
size from the metadata, `mmap`, enforced-base-address check, and a
handle with `has_ownership = false`. The `quiet` flag only selects the
logging mode of a `DoesNotExist` failure and does not change the
returned value. -/
def SharedMemoryBuilder.openShm (cfg : SharedMemoryBuilder) (quiet : Bool) (env : OsEnv)
    (st : OsState) : OsState × Except SharedMemoryCreationError SharedMemory :=
  let _ := quiet
  match env.open_result with
  | Except.error e => (st, Except.error e)
  | Except.ok fd =>
      match env.stat_result with
      | Except.error e => (st, Except.error (SharedMemoryCreationError.FileStatFailure e))
      | Except.ok actual =>
          match env.mmap_result with
          | Except.error e => (st, Except.error e)
          | Except.ok base =>
              let st1 : OsState := { mapped := base :: st.mapped }
              if enforceMismatch cfg.enforce_base_address base then
                (st1, Except.error SharedMemoryCreationError.UnableToMapAtEnforcedBaseAddress)
              else
                (st1, Except.ok
                  { name := cfg.name
                    size := actual
                    base_address := base
                    has_ownership := false
                    file_descriptor := fd
                    memory_lock := false })

/-- `SharedMemoryBuilder::try_open_existing`: set the access mode and
open quietly. -/
def SharedMemoryBuilder.try_open_existing (cfg : SharedMemoryBuilder) (am : AccessMode)
    (env : OsEnv) (st : OsState) :
    OsState × Except SharedMemoryCreationError SharedMemory :=
  SharedMemoryBuilder.openShm { cfg with access_mode := am } true env st

/-- `SharedMemoryBuilder::open_existing`: set the access mode and open
loudly. -/
def SharedMemoryBuilder.open_existing (cfg : SharedMemoryBuilder) (am : AccessMode)
    (env : OsEnv) (st : OsState) :
    OsState × Except SharedMemoryCreationError SharedMemory :=
  SharedMemoryBuilder.openShm { cfg with access_mode := am } false env st

/-- `SharedMemoryBuilder::creation_mode`: force the access mode to
read-write and record the creation mode, producing the creation-phase
builder (named `setCreationMode` here because the record field already
carries the source name). -/
def SharedMemoryBuilder.setCreationMode (cfg : SharedMemoryBuilder) (cm : CreationMode) :
    SharedMemoryBuilder :=
  { cfg with access_mode := AccessMode.ReadWrite, creation_mode := some cm }

/-- Modelled from the spec: the scope-guard utility
(`ScopeGuardBuilder::new(v).on_init(..).on_drop(..).create()` and the
guard's destructor) is exercised by
`elkodon_bb/elementary/tests/scope_guard_tests.rs` but its source file
is not part of the provided tree. Per §4.7 of the specification:
`create` runs `on_init(&mut v)`; on success it returns a guard that owns
`v` and runs `on_drop(&mut v)` exactly once when the guard is destroyed;
on failure it returns the error and `on_drop` is not called. The guard
here records the owned value; `on_init` is modelled as returning the
mutated value or the error. -/
structure ScopeGuard (α : Type) where
  value : α

/-- Modelled from the spec: `ScopeGuardBuilder::create` runs the init
callback on the value and either surfaces its error or wraps the
(possibly mutated) value in a guard. -/
def ScopeGuardBuilder.create {α ε : Type} (v0 : α) (onInit : α → Except ε α) :
    Except ε (ScopeGuard α) :=
  match onInit v0 with
  | Except.error e => Except.error e
  | Except.ok v1 => Except.ok { value := v1 }

/-- Modelled from the spec: destroying a guard invokes the drop callback
once, on the currently owned value; the returned list is the sequence of
values the drop callback was invoked with. -/
def ScopeGuard.dropGuard {α : Type} (g : ScopeGuard α) : List α := [g.value]

/-- Modelled from the spec: one whole scope — `create`, then (on
success) an in-scope mutation `body` of the guarded value, then the
guard's destruction at scope end. The second component is the list of
values the drop callback observed during the run. -/
def scopeGuardRun {α ε : Type} (v0 : α) (onInit : α → Except ε α) (body : α → α) :
    Except ε Unit × List α :=
  match ScopeGuardBuilder.create v0 onInit with
  | Except.error e => (Except.error e, [])
  | Except.ok g => (Except.ok (), ScopeGuard.dropGuard { g with value := body g.value })

/-- The byte string b"hello world". -/
def helloWorldName : List Nat := [104, 101, 108, 108, 111, 32, 119, 111, 114, 108, 100]

/-- The byte string b"some other test". -/
def someOtherTestName : List Nat :=
  [115, 111, 109, 101, 32, 111, 116, 104, 101, 114, 32, 116, 101, 115, 116]

/-- The byte string b"fuuu". -/
def fuuuName : List Nat := [102, 117, 117, 117]

/-- The directory after `set(12345, b"hello world")` on a freshly
initialized table: slot 12345 was written into buffer 1 (its counter was
1) and its counter advanced to 2. -/
def dir1 : PortToUdsNameMap := fun i =>
  if i = 12345 then
    { aba_counter := 2
      value0 := List.replicate MAX_UDS_NAME_LEN 0
      value1 := helloWorldName ++ List.replicate 97 0 }
  else PortToUdsNameMap.init i

/-- The directory after the further `set(54321, b"some other test")`. -/
def dir2 : PortToUdsNameMap := fun i =>
  if i = 54321 then
    { aba_counter := 2
      value0 := List.replicate MAX_UDS_NAME_LEN 0
      value1 := someOtherTestName ++ List.replicate 93 0 }
  else dir1 i

/-- The directory after the further `set(819, b"fuuu")`: the state of
the `win32_udp_port_to_uds_name_set_and_get_works` scenario. -/
def dirAfterWrites : PortToUdsNameMap := fun i =>
  if i = 819 then
    { aba_counter := 2
      value0 := List.replicate MAX_UDS_NAME_LEN 0
      value1 := fuuuName ++ List.replicate 104 0 }
  else dir2 i

/-- A concrete shared-memory name, b"shm". -/
def demoName : List Nat := [115, 104, 109]

/-- A creation-phase builder in `OpenOrCreate` mode with size 64 and the
default ownership request (`has_ownership = true`). -/
def demoCfgOpenOrCreate : SharedMemoryBuilder :=
  { (SharedMemoryBuilder.new demoName).setCreationMode CreationMode.OpenOrCreate with
      size := 64 }

/-- OS outcomes of a run in which the segment already exists: the silent
open yields fd 3, `mmap` places the 64-byte mapping at 4096, and every
remaining call succeeds. -/
def demoEnvOpen : OsEnv :=
  { open_result := Except.ok 3
    create_result := Except.ok 4
    unlink_result := Except.ok ()
    mmap_result := Except.ok 4096
    stat_result := Except.ok 64
    truncate_result := Except.ok ()
    mlock_result := Except.ok ()
    zero_signal := none
    advanced_signal_handling := true }

/-- OS outcomes of a run in which the segment is absent: the silent open
fails with `DoesNotExist` and the exclusive creation yields fd 4. -/
def demoEnvAbsent : OsEnv :=
  { demoEnvOpen with
      open_result := Except.error SharedMemoryCreationError.DoesNotExist }

/-- The handle the `OpenOrCreate` run returns when the open succeeded. -/
def demoShmOpened : SharedMemory :=
  { name := demoName
    size := 64
    base_address := 4096
    has_ownership := false
    file_descriptor := 3
    memory_lock := false }

/-- The handle the `OpenOrCreate` run returns when it created the
segment. -/
def demoShmCreated : SharedMemory :=
  { name := demoName
    size := 64
    base_address := 4096
    has_ownership := true
    file_descriptor := 4
    memory_lock := false }

/-- A creation-phase builder that additionally enforces base address
8192, which `demoEnvOpen`'s `mmap` (yielding 4096) cannot satisfy. -/
def demoCfgEnforce : SharedMemoryBuilder :=
  { (SharedMemoryBuilder.new demoName).setCreationMode CreationMode.CreateExclusive with
      size := 64
      enforce_base_address := some 8192 }

/-- Claim C7 fails on the code as stated: `align` is `usize` arithmetic,
and at `value = 2^64 - 1`, `alignment = 2` the sum
`value + alignment` overflows, so the release build returns 0 (a debug
build panics); in particular `align(v, a) ≥ v` is violated. -/
theorem align_overflow_counterexample :
    align (U64_MOD - 1) 2 = 0 ∧ ¬ (U64_MOD - 1 ≤ align (U64_MOD - 1) 2) := by
  constructor
  · decide
  · decide

/-- Claim C7 (amended): for every `v` and every power-of-two alignment
`a ∈ {1, 2, 4, ..., 4096}` such that `v + a` does not overflow `usize`
(`v + a < 2^64`), `align(v, a) ≥ v`, `a` divides `align(v, a)`, and
`align(v, a) - v < a`. -/
theorem align_works (v a : Nat) (hpow : ∃ k, k ≤ 12 ∧ a = 2 ^ k)
    (hno : v + a < U64_MOD) :
    v ≤ align v a ∧ a ∣ align v a ∧ align v a - v < a := by
  obtain ⟨k, -, rfl⟩ := hpow
  have ha : 0 < 2 ^ k := Nat.pos_pow_of_pos k (by decide)
  set a := 2 ^ k with hadef
  unfold align
  by_cases h0 : v % a = 0
  · simp only [h0, if_pos, if_true]
    exact ⟨Nat.le_refl v, Nat.dvd_of_mod_eq_zero h0, by omega⟩
  · have hma : v % a < a := Nat.mod_lt v ha
    have hmv : v % a ≤ v := Nat.mod_le v a
    have hwa : wrapAdd v a = v + a := by
      unfold wrapAdd
      exact Nat.mod_eq_of_lt hno
    have hms : v % a % U64_MOD = v % a := Nat.mod_eq_of_lt (by omega)
    have hws : wrapSub (wrapAdd v a) (v % a) = v + a - v % a := by
      unfold wrapSub
      rw [hwa, Nat.mod_eq_of_lt hno, hms]
      have h1 : v + a + (U64_MOD - v % a) = U64_MOD + (v + a - v % a) := by omega
      rw [h1, Nat.add_mod_left]
      exact Nat.mod_eq_of_lt (by omega)
    simp only [if_neg h0, hws]
    refine ⟨by omega, ?_, by omega⟩
    have hdm := Nat.div_add_mod v a
    have key : v + a - v % a = a * (v / a + 1) := by
      have : a * (v / a + 1) = a * (v / a) + a := by ring
      omega
    exact key ▸ Dvd.intro (v / a + 1) rfl

/-- Witness for the amended claim C7 at `v = 30`, `a = 8`. -/
theorem align_works_witness :
    30 ≤ align 30 8 ∧ 8 ∣ align 30 8 ∧ align 30 8 - 30 < 8 :=
  align_works 30 8 ⟨3, by decide, rfl⟩ (by decide)

/-- Claim C8: `round_to_pow2` maps each listed input to the next power
of two, exactly as checked by `math_round_to_pow2_works`. -/
theorem round_to_pow2_works :
    round_to_pow2 1 = 1 ∧ round_to_pow2 2 = 2 ∧ round_to_pow2 3 = 4 ∧
    round_to_pow2 4 = 4 ∧ round_to_pow2 5 = 8 ∧ round_to_pow2 6 = 8 ∧
    round_to_pow2 8589934597 = 17179869184 := by
  decide

/-- Claim C9: `create` surfaces the init callback's error verbatim and
then never invokes the drop callback; on init success the drop callback
runs exactly once, at guard destruction, on the value as mutated in
scope. -/
theorem scope_guard_callbacks (α ε : Type) (v0 : α) (onInit : α → Except ε α)
    (body : α → α) :
    (∀ e, onInit v0 = Except.error e →
        scopeGuardRun v0 onInit body = (Except.error e, [])) ∧
    (∀ v1, onInit v0 = Except.ok v1 →
        scopeGuardRun v0 onInit body = (Except.ok (), [body v1])) := by
  constructor
  · intro e he
    simp [scopeGuardRun, ScopeGuardBuilder.create, he]
  · intro v1 hv
    simp [scopeGuardRun, ScopeGuardBuilder.create, ScopeGuard.dropGuard, hv]

/-- Witness for claim C9 at the two test scenarios: value 456 mutated to
991 in scope reaches the drop callback once; init error 23482 on value
789 is surfaced and the drop callback never runs. -/
theorem scope_guard_callbacks_witness :
    scopeGuardRun 456 (fun v => (Except.ok v : Except Nat Nat)) (fun _ => 991) =
      (Except.ok (), [991]) ∧
    scopeGuardRun 789 (fun _ => (Except.error 23482 : Except Nat Nat)) (fun v => v) =
      (Except.error 23482, []) :=
  ⟨(scope_guard_callbacks Nat Nat 456 (fun v => Except.ok v) (fun _ => 991)).2 456 rfl,
   (scope_guard_callbacks Nat Nat 789 (fun _ => Except.error 23482) (fun v => v)).1
      23482 rfl⟩

/-- Incrementing a `u64` below the modulus and then decrementing it,
both wrapping, is the identity. -/
theorem wrapSub_wrapAdd_one (c : Nat) (hc : c < U64_MOD) :
    wrapSub (wrapAdd c 1) 1 = c := by
  unfold wrapAdd wrapSub
  rcases Nat.lt_or_ge (c + 1) U64_MOD with h | h
  · rw [Nat.mod_eq_of_lt h, Nat.mod_eq_of_lt h]
    have h1 : 1 % U64_MOD = 1 := by decide
    rw [h1]
    have h2 : c + 1 + (U64_MOD - 1) = U64_MOD + c := by omega
    rw [h2, Nat.add_mod_left]
    exact Nat.mod_eq_of_lt hc
  · have he : c + 1 = U64_MOD := by omega
    rw [he, Nat.mod_self, Nat.zero_mod]
    have h1 : 1 % U64_MOD = 1 := by decide
    rw [h1, Nat.zero_add]
    have h2 : U64_MOD - 1 < U64_MOD := by decide
    rw [Nat.mod_eq_of_lt h2]
    omega

/-- `copy_from_slice` into the zeroed 108-byte buffer pads the name with
trailing zeros. -/
theorem copyFromSlice_zeroed (v : List Nat) (hlen : v.length ≤ MAX_UDS_NAME_LEN) :
    copyFromSlice (List.replicate MAX_UDS_NAME_LEN 0) v =
      some (v ++ List.replicate (MAX_UDS_NAME_LEN - v.length) 0) := by
  unfold copyFromSlice
  rw [if_pos (by simpa using hlen), List.drop_replicate]

/-- `Entry::set` succeeds on names of at most 108 bytes. -/
theorem entry_set_isSome (e : Entry) (v : List Nat)
    (hlen : v.length ≤ MAX_UDS_NAME_LEN) :
    ∃ e2, Entry.set e v = some e2 := by
  unfold Entry.set
  rw [copyFromSlice_zeroed v hlen]
  dsimp only
  by_cases h2 : e.aba_counter % 2 = 0
  · exact ⟨_, if_pos h2⟩
  · exact ⟨_, if_neg h2⟩

/-- `Entry::set` followed by a quiescent `Entry::get` returns exactly
the written name padded with zeros to 108 bytes: `set` writes buffer
`c % 2` and bumps the counter to `c + 1`, and `get` then reads buffer
`((c + 1) - 1) % 2`. -/
theorem entry_set_get (e : Entry) (v : List Nat)
    (hlen : v.length ≤ MAX_UDS_NAME_LEN) (hc : e.aba_counter < U64_MOD) :
    ∃ e2, Entry.set e v = some e2 ∧
      Entry.get e2 = v ++ List.replicate (MAX_UDS_NAME_LEN - v.length) 0 := by
  unfold Entry.set
  rw [copyFromSlice_zeroed v hlen]
  dsimp only
  by_cases h2 : e.aba_counter % 2 = 0
  · refine ⟨_, if_pos h2, ?_⟩
    unfold Entry.get
    dsimp only
    rw [wrapSub_wrapAdd_one e.aba_counter hc, if_pos h2]
  · refine ⟨_, if_neg h2, ?_⟩
    unfold Entry.get
    dsimp only
    rw [wrapSub_wrapAdd_one e.aba_counter hc, if_neg h2]

/-- Claim C3: on any slot the table accepts, writing a name of at most
108 bytes into an initialized entry and reading it back with no
interleaved writer yields the 108-byte buffer that starts with the name
and is zero beyond it. -/
theorem set_get_round_trip (m : PortToUdsNameMap) (p : Nat) (name : List Nat)
    (hp : p < UDS_NAMES_LEN) (hlen : name.length ≤ MAX_UDS_NAME_LEN)
    (hinit : 1 ≤ (m p).aba_counter) (hc : (m p).aba_counter < U64_MOD) :
    ∃ m2, PortToUdsNameMap.set m p name = some m2 ∧
      PortToUdsNameMap.get m2 p =
        some (name ++ List.replicate (MAX_UDS_NAME_LEN - name.length) 0) := by
  obtain ⟨e2, hset, hget⟩ := entry_set_get (m p) name hlen hc
  refine ⟨fun i => if i = p then e2 else m i, ?_, ?_⟩
  · unfold PortToUdsNameMap.set
    rw [if_pos hp, hset]
  · unfold PortToUdsNameMap.get
    rw [if_pos hp]
    simp [hget]

/-- Witness for claim C3: writing b"hi" into slot 5 of the freshly
initialized directory and reading it back. -/
theorem set_get_round_trip_witness :
    ∃ m2, PortToUdsNameMap.set PortToUdsNameMap.init 5 [104, 105] = some m2 ∧
      PortToUdsNameMap.get m2 5 =
        some ([104, 105] ++ List.replicate (MAX_UDS_NAME_LEN - [104, 105].length) 0) :=
  set_get_round_trip PortToUdsNameMap.init 5 [104, 105] (by decide) (by decide)
    (by decide) (by decide)

/-- Claim C4 fails on the code as stated: the slot array has 65535
entries with indices 0..65534, so `set`/`get` at port 65535 index out of
bounds and panic. -/
theorem port_65535_out_of_bounds :
    PortToUdsNameMap.get PortToUdsNameMap.init 65535 = none ∧
    PortToUdsNameMap.set PortToUdsNameMap.init 65535 [102] = none := by
  constructor <;> rfl

/-- Claim C4 (amended): for every port `p` with `1 ≤ p ≤ 65534` (and a
name of at most 108 bytes for `set`), `PortToUdsNameMap::set` and
`PortToUdsNameMap::get` access the slot of `p` within the bounds of the
`uds_names` array; port 65535 itself indexes out of bounds. -/
theorem port_slots_in_bounds (m : PortToUdsNameMap) (p : Nat) (name : List Nat)
    (hp1 : 1 ≤ p) (hp2 : p ≤ 65534) (hlen : name.length ≤ MAX_UDS_NAME_LEN) :
    (∃ m2, PortToUdsNameMap.set m p name = some m2) ∧
    (∃ buf, PortToUdsNameMap.get m p = some buf) := by
  have hp : p < UDS_NAMES_LEN := by
    unfold UDS_NAMES_LEN
    omega
  constructor
  · obtain ⟨e2, hset⟩ := entry_set_isSome (m p) name hlen
    refine ⟨fun i => if i = p then e2 else m i, ?_⟩
    unfold PortToUdsNameMap.set
    rw [if_pos hp, hset]
  · refine ⟨Entry.get (m p), ?_⟩
    unfold PortToUdsNameMap.get
    rw [if_pos hp]

/-- Witness for the amended claim C4 at the last valid port, 65534. -/
theorem port_slots_in_bounds_witness :
    (∃ m2, PortToUdsNameMap.set PortToUdsNameMap.init 65534 [97] = some m2) ∧
    (∃ buf, PortToUdsNameMap.get PortToUdsNameMap.init 65534 = some buf) :=
  port_slots_in_bounds PortToUdsNameMap.init 65534 [97] (by decide) (by decide)
    (by decide)

/-- Claim C10: `set` accepts an unbounded byte slice, and for every name
longer than 108 bytes the copy into the 108-byte buffer is out of bounds
and panics; neither `Entry::set` nor the map-level `set` truncates or
returns an error. -/
theorem set_panics_on_overlong_name (m : PortToUdsNameMap) (e : Entry) (p : Nat)
    (name : List Nat) (hp : p < UDS_NAMES_LEN)
    (hlen : MAX_UDS_NAME_LEN < name.length) :
    Entry.set e name = none ∧ PortToUdsNameMap.set m p name = none := by
  have hall : ∀ e2 : Entry, Entry.set e2 name = none := by
    intro e2
    unfold Entry.set copyFromSlice
    rw [if_neg (by simpa using Nat.not_le.mpr hlen)]
  refine ⟨hall e, ?_⟩
  unfold PortToUdsNameMap.set
  rw [if_pos hp, hall (m p)]

/-- A scan over slots none of which matches returns 0. -/
theorem getPortScan_eq_zero (m : PortToUdsNameMap) (name : List Nat) :
    ∀ k i, (∀ j, i ≤ j → j < i + k → slotMatches m name j = false) →
      getPortScan m name i k = 0 := by
  intro k
  induction k with
  | zero => intro i _; rfl
  | succ n ih =>
      intro i h
      have hi : slotMatches m name i = false := h i (Nat.le_refl i) (by omega)
      rw [show getPortScan m name i (n + 1) =
          if slotMatches m name i then i else getPortScan m name (i + 1) n from rfl]
      simp only [hi, Bool.false_eq_true, if_false]
      exact ih (i + 1) (fun j hj1 hj2 => h j (by omega) (by omega))

/-- A scan returns the first matching slot index. -/
theorem getPortScan_eq_found (m : PortToUdsNameMap) (name : List Nat) :
    ∀ k i t, i ≤ t → t < i + k →
      (∀ j, i ≤ j → j < t → slotMatches m name j = false) →
      slotMatches m name t = true →
      getPortScan m name i k = t := by
  intro k
  induction k with
  | zero => intro i t h1 h2 _ _; omega
  | succ n ih =>
      intro i t h1 h2 h3 h4
      rw [show getPortScan m name i (n + 1) =
          if slotMatches m name i then i else getPortScan m name (i + 1) n from rfl]
      by_cases hit : i = t
      · subst hit
        simp [h4]
      · have hi : slotMatches m name i = false := h3 i (Nat.le_refl i) (by omega)
        simp only [hi, Bool.false_eq_true, if_false]
        exact ih (i + 1) t (by omega) (by omega)
          (fun j hj1 hj2 => h3 j (by omega) hj2) h4

/-- A slot whose stored buffer starts with NUL (first-NUL position 0)
never matches. -/
theorem slotMatches_pos_zero (m : PortToUdsNameMap) (name : List Nat) (j : Nat)
    (h : ((Entry.get (m j)).findIdx? (fun c => c == 0)).getD 0 = 0) :
    slotMatches m name j = false := by
  unfold slotMatches
  simp [h]

/-- Away from the three written slots, the scenario directory still
holds fresh entries. -/
theorem dirAfterWrites_empty (j : Nat) (h8 : j ≠ 819) (h5 : j ≠ 54321)
    (h1 : j ≠ 12345) : dirAfterWrites j = Entry.init := by
  unfold dirAfterWrites dir2 dir1
  rw [if_neg h8, if_neg h5, if_neg h1]
  rfl

/-- Away from the three written slots, no name matches in the scenario
directory. -/
theorem slotMatches_empty_slot (name : List Nat) (j : Nat) (h8 : j ≠ 819)
    (h5 : j ≠ 54321) (h1 : j ≠ 12345) :
    slotMatches dirAfterWrites name j = false := by
  apply slotMatches_pos_zero
  rw [dirAfterWrites_empty j h8 h5 h1]
  rfl

/-- Claim C5: after the three writes of the test scenario on a fresh
directory, the reverse lookup finds b"some other test" at 54321, and
both the empty name and b"x" match no slot, so `get_port` returns 0. -/
theorem get_port_scenario :
    ((PortToUdsNameMap.set PortToUdsNameMap.init 12345 helloWorldName).bind fun m1 =>
      (PortToUdsNameMap.set m1 54321 someOtherTestName).bind fun m2 =>
        PortToUdsNameMap.set m2 819 fuuuName) = some dirAfterWrites ∧
    PortToUdsNameMap.get_port dirAfterWrites someOtherTestName = 54321 ∧
    PortToUdsNameMap.get_port dirAfterWrites [] = 0 ∧
    PortToUdsNameMap.get_port dirAfterWrites [120] = 0 := by
  refine ⟨rfl, ?_, ?_, ?_⟩
  · unfold PortToUdsNameMap.get_port
    apply getPortScan_eq_found dirAfterWrites someOtherTestName UDS_NAMES_LEN 0 54321
      (by omega) (by decide)
    · intro j _ hj
      by_cases e8 : j = 819
      · subst e8; decide
      · by_cases e1 : j = 12345
        · subst e1; decide
        · exact slotMatches_empty_slot someOtherTestName j e8 (by omega) e1
    · decide
  · unfold PortToUdsNameMap.get_port
    apply getPortScan_eq_zero dirAfterWrites [] UDS_NAMES_LEN 0
    intro j _ _
    by_cases e8 : j = 819
    · subst e8; decide
    · by_cases e5 : j = 54321
      · subst e5; decide
      · by_cases e1 : j = 12345
        · subst e1; decide
        · exact slotMatches_empty_slot [] j e8 e5 e1
  · unfold PortToUdsNameMap.get_port
    apply getPortScan_eq_zero dirAfterWrites [120] UDS_NAMES_LEN 0
    intro j _ _
    by_cases e8 : j = 819
    · subst e8; decide
    · by_cases e5 : j = 54321
      · subst e5; decide
      · by_cases e1 : j = 12345
        · subst e1; decide
        · exact slotMatches_empty_slot [120] j e8 e5 e1

/-- Witness for claim C10: a 109-byte name panics on slot 4. -/
theorem set_panics_on_overlong_name_witness :
    Entry.set Entry.init (List.replicate 109 97) = none ∧
    PortToUdsNameMap.set PortToUdsNameMap.init 4 (List.replicate 109 97) = none :=
  set_panics_on_overlong_name PortToUdsNameMap.init Entry.init 4
    (List.replicate 109 97) (by decide) (by decide)

/-- Whenever `createFinish` produces an `ok` handle, that handle carries
the ownership flag of the handle it was given (locking and zeroing never
touch `has_ownership`). -/
theorem createFinish_ok_ownership (cfg : SharedMemoryBuilder) (env : OsEnv)
    (st st2 : OsState) (rec shm : SharedMemory)
    (h : createFinish cfg env st rec = (st2, Except.ok shm)) :
    shm.has_ownership = rec.has_ownership := by
  unfold createFinish at h
  by_cases hml : cfg.is_memory_locked
  · simp only [hml, if_true] at h
    cases hmlr : env.mlock_result with
    | error e => rw [hmlr] at h; simp at h
    | ok u =>
        rw [hmlr] at h
        dsimp only at h
        by_cases hz : cfg.zero_memory
        · simp only [hz, if_true] at h
          by_cases hadv : env.advanced_signal_handling
          · simp only [hadv, if_true] at h
            cases hsig : env.zero_signal with
            | some s => rw [hsig] at h; simp at h
            | none =>
                rw [hsig] at h
                simp at h
                rw [← h.2]
          · simp only [Bool.not_eq_true] at hadv
            simp [hadv] at h
            rw [← h.2]
        · simp only [Bool.not_eq_true] at hz
          simp [hz] at h
          rw [← h.2]
  · simp only [Bool.not_eq_true] at hml
    simp only [hml, Bool.false_eq_true, if_false] at h
    by_cases hz : cfg.zero_memory
    · simp only [hz, if_true] at h
      by_cases hadv : env.advanced_signal_handling
      · simp only [hadv, if_true] at h
        cases hsig : env.zero_signal with
        | some s => rw [hsig] at h; simp at h
        | none =>
            rw [hsig] at h
            simp at h
            rw [← h.2]
      · simp only [Bool.not_eq_true] at hadv
        simp [hadv] at h
        rw [← h.2]
    · simp only [Bool.not_eq_true] at hz
      simp [hz] at h
      rw [← h.2]

/-- Claim C1: in `OpenOrCreate` mode, when the silent open succeeds the
returned handle has `has_ownership = false` no matter what ownership the
caller configured; only when the open fails with `DoesNotExist` and the
segment is then created exclusively does the handle carry the configured
ownership. -/
theorem open_or_create_ownership (cfg : SharedMemoryBuilder) (env : OsEnv)
    (st st2 : OsState) (shm : SharedMemory)
    (hcm : cfg.creation_mode = some CreationMode.OpenOrCreate) :
    ((∃ fd, env.open_result = Except.ok fd) →
        SharedMemoryCreationBuilder.create cfg env st = some (st2, Except.ok shm) →
        shm.has_ownership = false) ∧
    (env.open_result = Except.error SharedMemoryCreationError.DoesNotExist →
        SharedMemoryCreationBuilder.create cfg env st = some (st2, Except.ok shm) →
        shm.has_ownership = cfg.has_ownership) := by
  constructor
  · rintro ⟨fd, hopen⟩ h
    simp only [SharedMemoryCreationBuilder.create, fdPhase, hcm, hopen] at h
    cases hmm : env.mmap_result with
    | error e => rw [hmm] at h; simp at h
    | ok base =>
        rw [hmm] at h
        dsimp only at h
        by_cases hef : enforceMismatch cfg.enforce_base_address base = true
        · simp [hef] at h
        · rw [Bool.not_eq_true] at hef
          simp only [hef, Bool.false_eq_true, if_false] at h
          cases hst : env.stat_result with
          | error e => rw [hst] at h; simp at h
          | ok actual =>
              rw [hst] at h
              by_cases hsz : actual = cfg.size
              · simp [hsz] at h
                rw [← h.2]
              · simp [hsz] at h
  · intro hopen h
    simp only [SharedMemoryCreationBuilder.create, fdPhase, hcm, hopen] at h
    cases hcr : env.create_result with
    | error e => rw [hcr] at h; simp [Except.map] at h
    | ok fd =>
        rw [hcr] at h
        simp only [Except.map] at h
        cases hmm : env.mmap_result with
        | error e => rw [hmm] at h; simp at h
        | ok base =>
            rw [hmm] at h
            dsimp only at h
            by_cases hef : enforceMismatch cfg.enforce_base_address base = true
            · simp [hef] at h
            · rw [Bool.not_eq_true] at hef
              simp only [hef, Bool.false_eq_true, if_false] at h
              simp only [if_neg (by decide : ¬(true = false))] at h
              cases htr : env.truncate_result with
              | error e => rw [htr] at h; simp at h
              | ok u =>
                  rw [htr] at h
                  dsimp only at h
                  cases hst : env.stat_result with
                  | error e => rw [hst] at h; simp at h
                  | ok actual =>
                      rw [hst] at h
                      by_cases hsz : actual = cfg.size
                      · simp only [hsz, ne_eq, not_true_eq_false, Bool.false_eq_true,
                          if_false, if_neg (not_not_intro rfl)] at h
                        simp only [Option.some.injEq] at h
                        exact createFinish_ok_ownership cfg env _ st2 _ shm h
                      · simp [hsz] at h

/-- Witness for claim C1: one run in which the segment existed (the
handle does not own it despite the configured `has_ownership = true`)
and one in which it was created (the handle owns it as configured). -/
theorem open_or_create_ownership_witness :
    demoShmOpened.has_ownership = false ∧
    demoShmCreated.has_ownership = demoCfgOpenOrCreate.has_ownership :=
  ⟨(open_or_create_ownership demoCfgOpenOrCreate demoEnvOpen ⟨[]⟩ ⟨[4096]⟩
      demoShmOpened rfl).1 ⟨3, rfl⟩ rfl,
   (open_or_create_ownership demoCfgOpenOrCreate demoEnvAbsent ⟨[]⟩ ⟨[4096]⟩
      demoShmCreated rfl).2 rfl rfl⟩

/-- The open path with an enforced base address the `mmap` result does
not meet: the error is `UnableToMapAtEnforcedBaseAddress` and the
mapping just established stays in the mapped set. -/
theorem openShm_enforce_mismatch (cfg : SharedMemoryBuilder) (quiet : Bool)
    (env : OsEnv) (st : OsState) (A B fd sz : Nat)
    (henf : cfg.enforce_base_address = some A)
    (hmm : env.mmap_result = Except.ok B) (hne : A ≠ B)
    (hopen : env.open_result = Except.ok fd)
    (hstat : env.stat_result = Except.ok sz) :
    SharedMemoryBuilder.openShm cfg quiet env st =
      ({ mapped := B :: st.mapped },
        Except.error SharedMemoryCreationError.UnableToMapAtEnforcedBaseAddress) := by
  unfold SharedMemoryBuilder.openShm
  rw [hopen, hstat, hmm]
  have he : enforceMismatch cfg.enforce_base_address B = true := by
    rw [henf]
    simp [enforceMismatch, hne]
  simp [he]

/-- Claim C2: in every open (`open_existing` and `try_open_existing`)
and every `create` in which `enforce_base_address = some A` is set and
`mmap` succeeds at a base `B ≠ A`, the operation fails with
`UnableToMapAtEnforcedBaseAddress`, and the mapping established by
`mmap` persists in the mapped state (no unmap on this failure path). -/
theorem enforced_base_address_not_unmapped (cfg : SharedMemoryBuilder) (env : OsEnv)
    (st : OsState) (A B : Nat) (henf : cfg.enforce_base_address = some A)
    (hmm : env.mmap_result = Except.ok B) (hne : A ≠ B) :
    (∀ am fd sz, env.open_result = Except.ok fd → env.stat_result = Except.ok sz →
      SharedMemoryBuilder.try_open_existing cfg am env st =
        ({ mapped := B :: st.mapped },
          Except.error SharedMemoryCreationError.UnableToMapAtEnforcedBaseAddress)) ∧
    (∀ am fd sz, env.open_result = Except.ok fd → env.stat_result = Except.ok sz →
      SharedMemoryBuilder.open_existing cfg am env st =
        ({ mapped := B :: st.mapped },
          Except.error SharedMemoryCreationError.UnableToMapAtEnforcedBaseAddress)) ∧
    (∀ fdres, fdPhase cfg env = some (Except.ok fdres) →
      SharedMemoryCreationBuilder.create cfg env st =
        some ({ mapped := B :: st.mapped },
          Except.error SharedMemoryCreationError.UnableToMapAtEnforcedBaseAddress)) := by
  refine ⟨?_, ?_, ?_⟩
  · intro am fd sz hopen hstat
    exact openShm_enforce_mismatch { cfg with access_mode := am } true env st A B fd sz
      (by simpa using henf) hmm hne hopen hstat
  · intro am fd sz hopen hstat
    exact openShm_enforce_mismatch { cfg with access_mode := am } false env st A B fd sz
      (by simpa using henf) hmm hne hopen hstat
  · rintro ⟨fd, created, owning⟩ hfd
    unfold SharedMemoryCreationBuilder.create
    rw [hfd]
    dsimp only
    rw [hmm]
    have he : enforceMismatch cfg.enforce_base_address B = true := by
      rw [henf]
      simp [enforceMismatch, hne]
    simp [he]

/-- Witness for claim C2: enforced base 8192 while `mmap` returns 4096,
for a `try_open_existing`, an `open_existing` and a `CreateExclusive`
run; address 4096 is still mapped afterwards. -/
theorem enforced_base_address_not_unmapped_witness :
    SharedMemoryBuilder.try_open_existing demoCfgEnforce AccessMode.Read demoEnvOpen
        ⟨[]⟩ =
      (⟨[4096]⟩, Except.error
        SharedMemoryCreationError.UnableToMapAtEnforcedBaseAddress) ∧
    SharedMemoryBuilder.open_existing demoCfgEnforce AccessMode.Read demoEnvOpen
        ⟨[]⟩ =
      (⟨[4096]⟩, Except.error
        SharedMemoryCreationError.UnableToMapAtEnforcedBaseAddress) ∧
    SharedMemoryCreationBuilder.create demoCfgEnforce demoEnvOpen ⟨[]⟩ =
      some (⟨[4096]⟩, Except.error
        SharedMemoryCreationError.UnableToMapAtEnforcedBaseAddress) :=
  ⟨(enforced_base_address_not_unmapped demoCfgEnforce demoEnvOpen ⟨[]⟩ 8192 4096
      rfl rfl (by decide)).1 AccessMode.Read 3 64 rfl rfl,
   (enforced_base_address_not_unmapped demoCfgEnforce demoEnvOpen ⟨[]⟩ 8192 4096
      rfl rfl (by decide)).2.1 AccessMode.Read 3 64 rfl rfl,
   (enforced_base_address_not_unmapped demoCfgEnforce demoEnvOpen ⟨[]⟩ 8192 4096
      rfl rfl (by decide)).2.2 (4, true, true) rfl⟩

